import Mathlib

/-
Shallow embedding of the fqsocks dynamic-proxy resolver (src/dynamic.py)
and the SPDY relay tunnel (src/fqsocks/spdy_relay.py).

Conventions: Python byte strings become Lean String values, socket and
queue effects become explicit inputs and outputs, and a Python exception
that a function can raise becomes an Except or Option result; a bare
try/except catch-all becomes a total wrapper around that fallible core.
-/

/-! ## dynamic.py -/

/--
Concrete proxy constructed by resolve_proxy as HttpConnectProxy(ip, port).
Its class lives in http_connect.py, outside the given sources; only the
fields the resolver binds and the liveness flag the delegating proxy
passes through are modelled. The port stays a string because the source
passes the split field through unconverted.
-/
structure HttpConnectProxy where
  ip : String
  port : String
  died : Bool
deriving DecidableEq, Repr

/-- Freshly constructed delegate: HttpConnectProxy(ip, port). -/
def HttpConnectProxy.make (ip port : String) : HttpConnectProxy :=
  { ip := ip, port := port, died := false }

/-- State of a DynamicProxy instance: the DNS record it wraps plus the
optional delegate, None at construction time. -/
structure DynamicProxy where
  proxy_dns_record : String
  delegated_to : Option HttpConnectProxy
deriving DecidableEq, Repr

/-- Python exceptions that the embedded methods can surface. -/
inductive PyError where
  | notImplementedError
  | keyError
  | valueError
deriving DecidableEq, Repr

/-- DynamicProxy.forward: delegate when bound, else raise
NotImplementedError. The delegated call itself is outside the given
sources, so a successful delegation is recorded as ok. -/
def DynamicProxy.forward (p : DynamicProxy) : Except PyError Unit :=
  match p.delegated_to with
  | some _ => Except.ok ()
  | none => Except.error PyError.notImplementedError

/-- DynamicProxy.died getter: delegate when bound, else False. -/
def DynamicProxy.died_get (p : DynamicProxy) : Bool :=
  match p.delegated_to with
  | some d => d.died
  | none => false

/-- DynamicProxy.died setter: delegate when bound, else ignore. -/
def DynamicProxy.died_set (p : DynamicProxy) (v : Bool) : DynamicProxy :=
  match p.delegated_to with
  | some d => { p with delegated_to := some { d with died := v } }
  | none => p

/-- Protocols the delegate supports are decided in http_connect.py,
outside the given sources; the delegated branch is therefore abstracted
by a predicate argument. Only the unresolved branch is claimed. -/
def DynamicProxy.is_protocol_supported (p : DynamicProxy)
    (delegate_supports : HttpConnectProxy → String → Bool) (protocol : String) : Bool :=
  match p.delegated_to with
  | some d => delegate_supports d protocol
  | none => false

/-- Character filter of the sanitization step in resolve_proxy:
e.isalnum() or e in a colon, dot, dash list. -/
def keep_char (c : Char) : Bool :=
  c.isAlphanum || c == ':' || c == '.' || c == '-'

/-- Sanitization applied to the TXT payload: join of every character
passing keep_char, in order. -/
def sanitize (s : String) : String :=
  String.mk (s.data.filter keep_char)

/-- Character class A-Z, a-z, 0-9, colon, dot, dash written as explicit
code ranges, following the spec description of the sanitization. -/
def spec_class (c : Char) : Bool :=
  (c.val ≥ 65 && c.val ≤ 90) || (c.val ≥ 97 && c.val ≤ 122) ||
  (c.val ≥ 48 && c.val ≤ 57) || c == ':' || c == '.' || c == '-'

/-- Python str.split with a one-character separator, over a character
list: split at every separator occurrence; an empty input gives one
empty field, adjacent separators give empty fields. -/
def py_split_chars (sep : Char) : List Char → List String
  | [] => [""]
  | c :: rest =>
    match py_split_chars sep rest with
    | [] => [String.mk [c]]
    | h :: t =>
      if c = sep then "" :: h :: t
      else String.mk (c :: h.data) :: t

/-- Python str.split(sep) for a one-character separator. -/
def py_split (s : String) (sep : Char) : List String :=
  py_split_chars sep s.data

/-- Outcome of the DNS exchange in resolve_proxy, up to the point the
sanitization runs: the socket or codec steps fail, or they produce the
first answer TXT payload. -/
inductive DnsOutcome where
  | timeout
  | sendFailure
  | malformed
  | answer (rdata : String)
deriving DecidableEq, Repr

/-- Unpacking of the sanitized connection string fields plus the type
assertion and delegate construction: the tuple unpacking raises unless
there are exactly five fields, and the assert raises on any type other
than http-connect. -/
def parse_connection_fields (fields : List String) : Except Unit HttpConnectProxy :=
  match fields with
  | [proxy_type, ip, port, _username, _password] =>
    if proxy_type = "http-connect" then
      Except.ok (HttpConnectProxy.make ip port)
    else
      Except.error ()
  | _ => Except.error ()

/-- Fallible core of resolve_proxy, the body of its try block after the
DNS exchange: sanitize, split on colon into exactly five fields, assert
the supported type, construct the delegate. Any failed step raises. -/
def resolve_proxy_core (o : DnsOutcome) : Except Unit HttpConnectProxy :=
  match o with
  | DnsOutcome.timeout => Except.error ()
  | DnsOutcome.sendFailure => Except.error ()
  | DnsOutcome.malformed => Except.error ()
  | DnsOutcome.answer rdata =>
    let connection_info := sanitize rdata
    parse_connection_fields (py_split connection_info ':')

/-- resolve_proxy: the catch-all except branch turns every raised fault
into delegated_to = None; success stores the constructed delegate. -/
def resolve_proxy (p : DynamicProxy) (o : DnsOutcome) : DynamicProxy :=
  match resolve_proxy_core o with
  | Except.ok d => { p with delegated_to := some d }
  | Except.error _ => { p with delegated_to := none }

/-! ## fqsocks/spdy_relay.py: frames and the Python dict -/

/-- Decoded SPDY frames as far as the relay inspects them: settings
frames carry id-value-flags pairs, data frames carry a payload, syn
reply frames carry headers, window updates carry a size. Settings
frames have no stream id attribute; the rest do. -/
inductive SpdyFrame where
  | settings (id_value_pairs : List (Nat × Nat × Nat))
  | dataFrame (stream_id : Nat) (data : List Nat)
  | synReply (stream_id : Nat) (headers : List (String × String))
  | windowUpdate (stream_id : Nat) (size : Nat)
deriving DecidableEq, Repr

/-- hasattr(frame, stream-id attribute): settings frames lack it. -/
def SpdyFrame.streamId? : SpdyFrame → Option Nat
  | SpdyFrame.settings _ => none
  | SpdyFrame.dataFrame sid _ => some sid
  | SpdyFrame.synReply sid _ => some sid
  | SpdyFrame.windowUpdate sid _ => some sid

/-- Python dict lookup over an association list whose entries were
inserted with dict_insert. -/
def hlookup : List (String × String) → String → Option String
  | [], _ => none
  | (k, v) :: rest, x => if x = k then some v else hlookup rest x

/-- Python dict item assignment: replace the value of the key in place,
keeping its position, otherwise append the new pair at the end. The
dicts built here never hold a key twice, as Python dicts cannot. -/
def dict_insert : List (String × String) → String → String → List (String × String)
  | [], k, v => [(k, v)]
  | (k0, v0) :: rest, k, v =>
    if k0 = k then (k, v) :: rest else (k0, v0) :: dict_insert rest k v

/-- Python dict built from a pair list: later duplicates win. -/
def dict_of (l : List (String × String)) : List (String × String) :=
  l.foldl (fun acc kv => dict_insert acc kv.1 kv.2) []

/-- Value of the last pair with the given key in a pair list, the
lookup a Python dict built from that list performs. -/
def last_lookup : List (String × String) → String → Option String
  | [], _ => none
  | (k, v) :: rest, x =>
    match last_lookup rest x with
    | some w => some w
    | none => if x = k then some v else none

/-! ## fqsocks/spdy_relay.py: SpdyClient frame consumption -/

/-- SETTINGS id for the initial window size in SPDY version 3. -/
def INITIAL_WINDOW_SIZE : Nat := 7

/-- Mutable fields of SpdyClient that consume_frames touches, plus the
frames written out through send. Each stream queue is the list of
frames put on it, in order. -/
structure SpdyClientState where
  window_size : Nat
  current_window : Nat
  streams : List (Nat × List SpdyFrame)
  sent : List SpdyFrame
deriving DecidableEq, Repr

/-- Lookup of a stream queue by id, as the streams dict access. -/
def stream_lookup : List (Nat × List SpdyFrame) → Nat → Option (List SpdyFrame)
  | [], _ => none
  | (sid, q) :: rest, x => if x = sid then some q else stream_lookup rest x

/-- Queue put on the stream with the given id; none models the KeyError
of an unregistered id. -/
def stream_put (streams : List (Nat × List SpdyFrame)) (sid : Nat) (f : SpdyFrame) :
    Option (List (Nat × List SpdyFrame)) :=
  match stream_lookup streams sid with
  | none => none
  | some _ => some (streams.map (fun p => if p.1 = sid then (p.1, p.2 ++ [f]) else p))

/-- dict(id_value_pairs).get(INITIAL_WINDOW_SIZE): later duplicates
win, so the reversed list is searched front to back. -/
def settings_window : List (Nat × Nat × Nat) → Option (Nat × Nat)
  | [] => none
  | p :: rest =>
    match settings_window rest with
    | some r => some r
    | none => if p.1 = INITIAL_WINDOW_SIZE then some p.2 else none

/-- One iteration of the consume_frames body on a decoded frame: a
settings frame may replace window_size; a data frame grows
current_window and, once it reaches half of window_size, sends a
window update sized to the full window (current_window is not written
back to zero anywhere); finally any frame carrying a stream id is put
on that stream queue, where an unregistered id raises KeyError,
reported as a true second component. -/
def consume_one (st : SpdyClientState) (f : SpdyFrame) : SpdyClientState × Bool :=
  let st1 :=
    match f with
    | SpdyFrame.settings pairs =>
      match settings_window pairs with
      | some fv => { st with window_size := fv.2 }
      | none => st
    | _ => st
  let st2 :=
    match f with
    | SpdyFrame.dataFrame sid data =>
      let cw := st1.current_window + data.length
      if cw ≥ st1.window_size / 2 then
        { st1 with
          current_window := cw
          sent := st1.sent ++ [SpdyFrame.windowUpdate sid st1.window_size] }
      else
        { st1 with current_window := cw }
    | _ => st1
  match f.streamId? with
  | none => (st2, false)
  | some sid =>
    match stream_put st2.streams sid f with
    | none => (st2, true)
    | some streams2 => ({ st2 with streams := streams2 }, false)

/-- consume_frames over the frames the decoder yields this round; a
raised KeyError stops the run and propagates as a true flag, leaving
the effects of the frames already handled in place. -/
def consume_frames (st : SpdyClientState) : List SpdyFrame → SpdyClientState × Bool
  | [] => (st, false)
  | f :: rest =>
    match consume_one st f with
    | (st1, true) => (st1, true)
    | (st1, false) => consume_frames st1 rest

/-- SpdyClient.loop over successive decoder batches: the catch-all
wrapper logs any escaped exception and ends the loop, so a KeyError in
one batch stops every later batch from being consumed. -/
def spdy_loop (st : SpdyClientState) : List (List SpdyFrame) → SpdyClientState
  | [] => st
  | batch :: more =>
    match consume_frames st batch with
    | (st1, true) => st1
    | (st1, false) => spdy_loop st1 more

/-! ## fqsocks/spdy_relay.py: SpdyRelayProxy.do_forward -/

/-- sys.maxint on the usual 64-bit build. -/
def maxint : Int := 9223372036854775807

/-- Python str.strip(): drop whitespace from both ends. -/
def py_strip (s : String) : String :=
  String.mk (((s.data.dropWhile Char.isWhitespace).reverse.dropWhile Char.isWhitespace).reverse)

/-- Decimal value of a nonempty all-digit character run. -/
def dec_digits? : List Char → Option Nat
  | [] => none
  | ds =>
    ds.foldl
      (fun acc c =>
        match acc with
        | none => none
        | some n => if c.isDigit then some (n * 10 + (c.toNat - 48)) else none)
      (some 0)

/-- Python int(str): optional surrounding whitespace, an optional sign,
then a digit run; anything else raises ValueError, modelled as none. -/
def py_int? (s : String) : Option Int :=
  match (py_strip s).data with
  | '-' :: ds => (dec_digits? ds).map (fun n => -(n : Int))
  | '+' :: ds => (dec_digits? ds).map (fun n => (n : Int))
  | ds => (dec_digits? ds).map (fun n => (n : Int))

/-- Character-list core of str.startswith. -/
def starts_with_chars : List Char → List Char → Bool
  | [], _ => true
  | _ :: _, [] => false
  | p :: ps, c :: cs => p = c && starts_with_chars ps cs

/-- Python str.startswith. -/
def py_startswith (s pre : String) : Bool :=
  starts_with_chars pre.data s.data

/-- Python str.lower over an ASCII byte string. -/
def py_lower (s : String) : String :=
  String.mk (s.data.map Char.toLower)

/-- Bytes written to the downstream client socket, kept structured. -/
inductive OutChunk where
  | statusLine (version status : String)
  | headerLine (k v : String)
  | blankLine
  | dataChunk (bytes : List Nat)
deriving DecidableEq, Repr

/-- Client-connection fields do_forward reads and writes: the
forward_started flag, the chunks sent downstream, and how many times
fall_back ran. -/
structure ForwardClient where
  forward_started : Bool
  downstream : List OutChunk
  fallback_count : Nat
deriving DecidableEq, Repr

/-- Reply headers left after popping the version and status
pseudo-headers. -/
def reply_rest (m : List (String × String)) : List (String × String) :=
  m.filter (fun kv => kv.1 ≠ ":version" && kv.1 ≠ ":status")

/-- on_syn_reply_frame: pop version and status from the reply header
dict (a missing key raises, modelled as a none first component with the
client untouched), mark forwarding started, write the status line, the
remaining headers and a blank line downstream, then compute the
remaining byte count: zero whenever the status starts with 304, else
the parsed content-length, defaulting to maxint when absent; a
content-length that fails to parse raises after the writes. -/
def on_syn_reply_frame (cl : ForwardClient) (hdrs : List (String × String)) :
    Option Int × ForwardClient :=
  let m := dict_of hdrs
  match hlookup m ":version", hlookup m ":status" with
  | some http_version, some status =>
    let rest := reply_rest m
    let cl1 : ForwardClient :=
      { cl with
        forward_started := true
        downstream := cl.downstream ++ [OutChunk.statusLine http_version status]
          ++ rest.map (fun kv => OutChunk.headerLine kv.1 kv.2) ++ [OutChunk.blankLine] }
    if py_startswith status "304" then (some 0, cl1)
    else
      match hlookup rest "content-length" with
      | none => (some maxint, cl1)
      | some s => (py_int? s, cl1)
  | _, _ => (none, cl)

/-- on_data_frame: write the payload downstream and report its length. -/
def on_data_frame (cl : ForwardClient) (data : List Nat) : ForwardClient × Nat :=
  ({ cl with downstream := cl.downstream ++ [OutChunk.dataChunk data] }, data.length)

/-- Result of the after-open part of one do_forward call. -/
inductive ForwardOutcome where
  | completed
  | fellBack (reason : String)
  | fatal (msg : String)
  | pyError
  | starved
deriving DecidableEq, Repr

/-- What each bounded-wait queue read of the drain loop yields: a frame,
or the Empty exception of a ten-second timeout. -/
inductive QueueEvent where
  | timeout
  | frame (f : SpdyFrame)
deriving DecidableEq, Repr

/-- The do_forward drain loop over the sequence of queue-read outcomes:
while remaining bytes stay positive, pop the next event. A timeout
raises the fatal taking-too-long error when forwarding already
started, else falls back once and returns. A syn reply frame replaces
the remaining count through on_syn_reply_frame (pyError when that
raises); a data frame sets forward_started, forwards the payload and
subtracts its length; any other frame is logged and skipped. starved
is the model boundary for an exhausted event sequence. -/
def do_forward_loop : List QueueEvent → Int → ForwardClient → ForwardOutcome × ForwardClient
  | events, remaining_bytes, cl =>
    if remaining_bytes ≤ 0 then (ForwardOutcome.completed, cl)
    else
      match events with
      | [] => (ForwardOutcome.starved, cl)
      | QueueEvent.timeout :: _ =>
        if cl.forward_started then
          (ForwardOutcome.fatal "taking too long to read frame from proxy", cl)
        else
          (ForwardOutcome.fellBack "no response from proxy",
            { cl with fallback_count := cl.fallback_count + 1 })
      | QueueEvent.frame (SpdyFrame.synReply _ hdrs) :: rest =>
        match on_syn_reply_frame cl hdrs with
        | (some n, cl1) => do_forward_loop rest n cl1
        | (none, cl1) => (ForwardOutcome.pyError, cl1)
      | QueueEvent.frame (SpdyFrame.dataFrame _ data) :: rest =>
        let cl1 := { cl with forward_started := true }
        let r := on_data_frame cl1 data
        do_forward_loop rest (remaining_bytes - (r.2 : Int)) r.1
      | QueueEvent.frame _ :: rest =>
        do_forward_loop rest remaining_bytes cl

/-! ## fqsocks/spdy_relay.py: request header construction and connect -/

/-- Standard base64 alphabet as a character list. -/
def b64_alphabet : List Char :=
  "ABCDEFGHIJKLMNOPQRSTUVWXYZabcdefghijklmnopqrstuvwxyz0123456789+/".data

/-- Character of the base64 alphabet at a six-bit index. -/
def b64_digit (n : Nat) : Char :=
  b64_alphabet.getD n 'A'

/-- Standard base64 of a byte list, three bytes to four characters with
equals-sign padding, as base64.b64encode produces. -/
def b64_encode_bytes : List Nat → List Char
  | [] => []
  | [a] =>
    [b64_digit (a / 4), b64_digit (a % 4 * 16), '=', '=']
  | [a, b] =>
    [b64_digit (a / 4), b64_digit (a % 4 * 16 + b / 16), b64_digit (b % 16 * 4), '=']
  | a :: b :: c :: rest =>
    b64_digit (a / 4) :: b64_digit (a % 4 * 16 + b / 16) ::
      b64_digit (b % 16 * 4 + c / 64) :: b64_digit (c % 64) :: b64_encode_bytes rest

/-- base64.b64encode over a byte string, bytes taken as code points. -/
def b64encode (s : String) : String :=
  String.mk (b64_encode_bytes (s.data.map Char.toNat))

/-- Python truthiness of an optional string credential: configured means
present and nonempty. -/
def py_truthy (o : Option String) : Bool :=
  match o with
  | none => false
  | some s => s != ""

/-- Original request headers under their lower-cased names, in order. -/
def lower_pairs (hs : List (String × String)) : List (String × String) :=
  hs.map (fun kv => (py_lower kv.1, kv.2))

/-- Header dict that do_forward sends when opening a stream: the literal
with the five reserved pseudo-headers, then the proxy-authorization
entry when both credentials are truthy, its value the Basic prefix,
the stripped base64 of username colon password, and the literal CRLF
the source formats into it, then every original request header under
its lower-cased name via dict item assignment. -/
def do_forward_headers (username password : Option String)
    (method path host : String) (hs : List (String × String)) : List (String × String) :=
  let m := dict_of [(":method", method), (":scheme", "http"), (":path", path),
    (":version", "HTTP/1.1"), (":host", host)]
  let m :=
    if py_truthy username && py_truthy password then
      let auth := py_strip (b64encode ((username.getD "") ++ ":" ++ (password.getD "")))
      dict_insert m "proxy-authorization" ("Basic " ++ auth ++ "\r\n")
    else m
  hs.foldl (fun acc kv => dict_insert acc (py_lower kv.1) kv.2) m

/-- Whether the try block of SpdyRelayProxy.connect raises. -/
inductive ConnectOutcome where
  | success
  | failure
deriving DecidableEq, Repr

/-- Mutable fields of SpdyRelayProxy that connect and refresh touch;
the live tunnel client is collapsed to a presence marker. -/
structure SpdyRelayProxyState where
  died : Bool
  spdy_client : Option Unit
deriving DecidableEq, Repr

/-- Fallible core of connect: close the previous client, build a new
SpdyClient and spawn its loop; any raised exception propagates. -/
def connect_core (p : SpdyRelayProxyState) (o : ConnectOutcome) :
    Except Unit SpdyRelayProxyState :=
  match o with
  | ConnectOutcome.success => Except.ok { p with spdy_client := some () }
  | ConnectOutcome.failure => Except.error ()

/-- SpdyRelayProxy.connect: the catch-all except branch logs and marks
the proxy dead; nothing is raised to the caller. -/
def connect (p : SpdyRelayProxyState) (o : ConnectOutcome) : SpdyRelayProxyState :=
  match connect_core p o with
  | Except.ok p1 => p1
  | Except.error _ => { p with died := true }

/-- SpdyRelayProxy.refresh: connect every instance in order and return
True unconditionally. -/
def spdy_refresh (ps : List (SpdyRelayProxyState × ConnectOutcome)) :
    List SpdyRelayProxyState × Bool :=
  (ps.map (fun po => connect po.1 po.2), true)

/-- Concrete 32768-byte data payload used when evaluating the flow
control step at the window threshold. -/
def big_payload : List Nat := List.replicate 32768 0

/-! ## Helper lemmas about the dict embedding -/

/-- Effect of one dict item assignment on an arbitrary lookup. -/
lemma hlookup_dict_insert (m : List (String × String)) (k v x : String) :
    hlookup (dict_insert m k v) x = if x = k then some v else hlookup m x := by
  induction m with
  | nil => rfl
  | cons kv rest ih =>
    obtain ⟨k0, v0⟩ := kv
    by_cases hk : k0 = k
    · subst hk
      by_cases hx : x = k0
      · simp [dict_insert, hlookup, hx]
      · simp [dict_insert, hlookup, hx]
    · by_cases hx : x = k0
      · subst hx
        simp [dict_insert, hlookup, hk]
      · simp [dict_insert, hlookup, hk, hx, ih]

/-- Lookup after folding dict item assignments over a pair list: the
last matching pair of the list wins, else the prior dict answers. -/
lemma hlookup_foldl_insert (l : List (String × String)) (m : List (String × String))
    (x : String) :
    hlookup (l.foldl (fun acc kv => dict_insert acc kv.1 kv.2) m) x =
      match last_lookup l x with
      | some w => some w
      | none => hlookup m x := by
  induction l generalizing m with
  | nil => rfl
  | cons kv rest ih =>
    obtain ⟨k0, v0⟩ := kv
    simp only [List.foldl, last_lookup, ih, hlookup_dict_insert]
    cases last_lookup rest x with
    | some w => rfl
    | none =>
      by_cases hx : x = k0
      · simp [hx]
      · simp [hx]

/-- Lookup in a dict built from a pair list is the last matching pair. -/
lemma hlookup_dict_of (l : List (String × String)) (x : String) :
    hlookup (dict_of l) x = last_lookup l x := by
  unfold dict_of
  rw [hlookup_foldl_insert]
  cases last_lookup l x <;> rfl

/-- Dropping the version and status keys is invisible to lookups of any
other key. -/
lemma hlookup_reply_rest (m : List (String × String)) (x : String)
    (h1 : x ≠ ":version") (h2 : x ≠ ":status") :
    hlookup (reply_rest m) x = hlookup m x := by
  induction m with
  | nil => rfl
  | cons kv rest ih =>
    obtain ⟨k0, v0⟩ := kv
    simp only [reply_rest] at ih ⊢
    by_cases hp : k0 ≠ ":version" ∧ k0 ≠ ":status"
    · rw [List.filter_cons_of_pos (by simp [hp.1, hp.2])]
      by_cases hx : x = k0
      · simp [hlookup, hx]
      · simp only [hlookup, if_neg hx]
        exact ih
    · rw [List.filter_cons_of_neg (by simpa using fun a b => hp ⟨a, b⟩)]
      have hx : x ≠ k0 := by
        rcases not_and_or.mp hp with h | h
        · rw [not_not.mp h]
          exact h1
        · rw [not_not.mp h]
          exact h2
      simp only [hlookup, if_neg hx]
      exact ih

/-- Tuple unpacking of anything but exactly five fields raises. -/
lemma parse_fields_error_of_length (fields : List String) (h : fields.length ≠ 5) :
    parse_connection_fields fields = Except.error () := by
  exact match fields, h with
  | [], _ => rfl
  | [_], _ => rfl
  | [_, _], _ => rfl
  | [_, _, _], _ => rfl
  | [_, _, _, _], _ => rfl
  | [_, _, _, _, _], h => absurd rfl h
  | _ :: _ :: _ :: _ :: _ :: _ :: _, _ => rfl

/-- The source filter and the spec character class agree pointwise. -/
lemma keep_char_eq_spec_class (c : Char) : keep_char c = spec_class c := rfl

/-! ## Claim theorems -/

/--
C3: resolve_proxy never raises to its caller: every fault of the
fallible core, and in particular a DNS timeout, a send failure, a
malformed answer, a sanitized payload that does not split into five
colon fields, and a five-field payload with an unsupported type, is
absorbed by the catch-all handler and leaves the proxy unresolved,
delegated_to = none; in general the result is always the core outcome
converted to an option, never a propagated error.
-/
theorem c3_resolve_proxy_absorbs_faults :
    (∀ (p : DynamicProxy) (o : DnsOutcome) (e : Unit),
      resolve_proxy_core o = Except.error e →
      (resolve_proxy p o).delegated_to = none) ∧
    (∀ (p : DynamicProxy) (o : DnsOutcome),
      resolve_proxy p o = { p with delegated_to := (resolve_proxy_core o).toOption }) ∧
    (∀ p : DynamicProxy, (resolve_proxy p DnsOutcome.timeout).delegated_to = none) ∧
    (∀ p : DynamicProxy, (resolve_proxy p DnsOutcome.sendFailure).delegated_to = none) ∧
    (∀ p : DynamicProxy, (resolve_proxy p DnsOutcome.malformed).delegated_to = none) ∧
    (∀ (p : DynamicProxy) (s : String), (py_split (sanitize s) ':').length ≠ 5 →
      (resolve_proxy p (DnsOutcome.answer s)).delegated_to = none) ∧
    (∀ (p : DynamicProxy) (s t ip port u pw : String),
      py_split (sanitize s) ':' = [t, ip, port, u, pw] → t ≠ "http-connect" →
      (resolve_proxy p (DnsOutcome.answer s)).delegated_to = none) := by
  refine ⟨?_, ?_, ?_, ?_, ?_, ?_, ?_⟩
  · intro p o e h
    simp [resolve_proxy, h]
  · intro p o
    cases h : resolve_proxy_core o <;> simp [resolve_proxy, h, Except.toOption]
  · intro p
    rfl
  · intro p
    rfl
  · intro p
    rfl
  · intro p s h
    have hc : resolve_proxy_core (DnsOutcome.answer s) = Except.error () :=
      parse_fields_error_of_length (py_split (sanitize s) ':') h
    simp [resolve_proxy, hc]
  · intro p s t ip port u pw hfields ht
    have hc : resolve_proxy_core (DnsOutcome.answer s) = Except.error () := by
      show parse_connection_fields (py_split (sanitize s) ':') = Except.error ()
      rw [hfields]
      simp [parse_connection_fields, ht]
    simp [resolve_proxy, hc]

/--
Witness for C3 at concrete inputs: a timeout, a payload with a single
field, and a five-field payload typed socks5 all leave the proxy
unresolved.
-/
theorem c3_resolve_proxy_absorbs_faults_witness :
    (resolve_proxy ⟨"record", none⟩ DnsOutcome.timeout).delegated_to = none ∧
    (resolve_proxy ⟨"record", none⟩ (DnsOutcome.answer "abc")).delegated_to = none ∧
    (resolve_proxy ⟨"record", none⟩ (DnsOutcome.answer "socks5:h:1:u:p")).delegated_to = none :=
  ⟨c3_resolve_proxy_absorbs_faults.2.2.1 ⟨"record", none⟩,
   c3_resolve_proxy_absorbs_faults.2.2.2.2.2.1 ⟨"record", none⟩ "abc" (by decide),
   c3_resolve_proxy_absorbs_faults.2.2.2.2.2.2 ⟨"record", none⟩ "socks5:h:1:u:p"
     "socks5" "h" "1" "u" "p" (by decide) (by decide)⟩

/--
C5: a sanitized connection string splitting into exactly the five
fields type, host, port, username, password with type http-connect
binds a delegate whose host and port are the parsed fields; any other
field count, and any other type value, leaves the proxy unresolved.
-/
theorem c5_resolve_proxy_five_fields :
    (∀ (p : DynamicProxy) (s t ip port u pw : String),
      py_split (sanitize s) ':' = [t, ip, port, u, pw] → t = "http-connect" →
      (resolve_proxy p (DnsOutcome.answer s)).delegated_to =
        some (HttpConnectProxy.make ip port)) ∧
    (∀ (p : DynamicProxy) (s : String), (py_split (sanitize s) ':').length ≠ 5 →
      (resolve_proxy p (DnsOutcome.answer s)).delegated_to = none) ∧
    (∀ (p : DynamicProxy) (s t ip port u pw : String),
      py_split (sanitize s) ':' = [t, ip, port, u, pw] → t ≠ "http-connect" →
      (resolve_proxy p (DnsOutcome.answer s)).delegated_to = none) := by
  refine ⟨?_, ?_, ?_⟩
  · intro p s t ip port u pw hfields ht
    have hc : resolve_proxy_core (DnsOutcome.answer s) =
        Except.ok (HttpConnectProxy.make ip port) := by
      show parse_connection_fields (py_split (sanitize s) ':') = _
      rw [hfields]
      simp [parse_connection_fields, ht]
    simp [resolve_proxy, hc]
  · intro p s h
    have hc : resolve_proxy_core (DnsOutcome.answer s) = Except.error () :=
      parse_fields_error_of_length (py_split (sanitize s) ':') h
    simp [resolve_proxy, hc]
  · intro p s t ip port u pw hfields ht
    have hc : resolve_proxy_core (DnsOutcome.answer s) = Except.error () := by
      show parse_connection_fields (py_split (sanitize s) ':') = Except.error ()
      rw [hfields]
      simp [parse_connection_fields, ht]
    simp [resolve_proxy, hc]

/--
Witness for C5 at concrete inputs: a well-formed http-connect payload
binds host 10.0.0.1 and port 8080; a one-field payload and a socks5
payload stay unresolved.
-/
theorem c5_resolve_proxy_five_fields_witness :
    (resolve_proxy ⟨"record", none⟩
      (DnsOutcome.answer "http-connect:10.0.0.1:8080:user:pass")).delegated_to =
      some (HttpConnectProxy.make "10.0.0.1" "8080") ∧
    (resolve_proxy ⟨"record", none⟩ (DnsOutcome.answer "onlyonefield")).delegated_to = none ∧
    (resolve_proxy ⟨"record", none⟩ (DnsOutcome.answer "socks4:h:1:u:p")).delegated_to = none :=
  ⟨c5_resolve_proxy_five_fields.1 ⟨"record", none⟩ "http-connect:10.0.0.1:8080:user:pass"
     "http-connect" "10.0.0.1" "8080" "user" "pass" (by decide) rfl,
   c5_resolve_proxy_five_fields.2.1 ⟨"record", none⟩ "onlyonefield" (by decide),
   c5_resolve_proxy_five_fields.2.2 ⟨"record", none⟩ "socks4:h:1:u:p"
     "socks4" "h" "1" "u" "p" (by decide) (by decide)⟩

/--
C6: a DynamicProxy without a delegate reads died as false, discards
writes to died, supports no protocol whatever the delegate capability
predicate and the protocol argument are, and forward raises
NotImplementedError.
-/
theorem c6_unresolved_dynamic_proxy_defaults :
    ∀ (record : String) (v : Bool) (protocol : String)
      (caps : HttpConnectProxy → String → Bool),
      (DynamicProxy.mk record none).died_get = false ∧
      (DynamicProxy.mk record none).died_set v = DynamicProxy.mk record none ∧
      (DynamicProxy.mk record none).is_protocol_supported caps protocol = false ∧
      (DynamicProxy.mk record none).forward = Except.error PyError.notImplementedError := by
  intro record v protocol caps
  exact ⟨rfl, rfl, rfl, rfl⟩

/--
C8 counterexample: sanitizing the input from the claim keeps the
alphanumeric characters of the word script and removes only the angle
brackets, so the result is not the string the claim states.
-/
theorem c8_sanitize_counterexample :
    sanitize "http-connect:10.0.0.1:8080:u:p<script>" =
      "http-connect:10.0.0.1:8080:u:pscript" ∧
    sanitize "http-connect:10.0.0.1:8080:u:p<script>" ≠
      "http-connect:10.0.0.1:8080:u:p" := by
  exact ⟨by decide, by decide⟩

/--
C8 as amended: sanitization keeps exactly the characters in the class
A-Z, a-z, 0-9, colon, dot, dash, in order, and the claimed input
sanitizes to http-connect:10.0.0.1:8080:u:pscript, only its angle
brackets being removed.
-/
theorem c8_sanitize_amended :
    (∀ s : String, (sanitize s).data = s.data.filter spec_class) ∧
    sanitize "http-connect:10.0.0.1:8080:u:p<script>" =
      "http-connect:10.0.0.1:8080:u:pscript" := by
  constructor
  · intro s
    show s.data.filter keep_char = s.data.filter spec_class
    rw [funext keep_char_eq_spec_class]
  · decide

/--
C1 evaluation at the failing input: with window_size 65536, a stream 1
registered and current_window 0, a 32768-byte data frame followed by a
1-byte data frame makes the consumption step send two window updates
sized 65536, one per frame, and leaves current_window at 32769: the
code never resets current_window to 0 after emitting a window update,
so reaching half the window does not produce exactly one update and
the counter does not return to 0.
-/
theorem c1_flow_control_missing_reset (d1 d2 : List Nat)
    (h1 : d1.length = 32768) (h2 : d2.length = 1) :
    consume_frames ⟨65536, 0, [(1, [])], []⟩
      [SpdyFrame.dataFrame 1 d1, SpdyFrame.dataFrame 1 d2] =
      (⟨65536, 32769,
        [(1, [SpdyFrame.dataFrame 1 d1, SpdyFrame.dataFrame 1 d2])],
        [SpdyFrame.windowUpdate 1 65536, SpdyFrame.windowUpdate 1 65536]⟩, false) := by
  have s1 : consume_one ⟨65536, 0, [(1, [])], []⟩ (SpdyFrame.dataFrame 1 d1) =
      (⟨65536, 32768, [(1, [SpdyFrame.dataFrame 1 d1])],
        [SpdyFrame.windowUpdate 1 65536]⟩, false) := by
    simp only [consume_one, stream_put, stream_lookup, SpdyFrame.streamId?, h1]
    norm_num
  have s2 : consume_one
      ⟨65536, 32768, [(1, [SpdyFrame.dataFrame 1 d1])], [SpdyFrame.windowUpdate 1 65536]⟩
      (SpdyFrame.dataFrame 1 d2) =
      (⟨65536, 32769,
        [(1, [SpdyFrame.dataFrame 1 d1, SpdyFrame.dataFrame 1 d2])],
        [SpdyFrame.windowUpdate 1 65536, SpdyFrame.windowUpdate 1 65536]⟩, false) := by
    simp only [consume_one, stream_put, stream_lookup, SpdyFrame.streamId?, h2]
    norm_num
  simp only [consume_frames, s1, s2]

/--
Witness for C1 at the fully concrete failing input, the 32768-byte
payload written as a replicate.
-/
theorem c1_flow_control_missing_reset_witness :
    big_payload.length = 32768 ∧
    consume_frames ⟨65536, 0, [(1, [])], []⟩
      [SpdyFrame.dataFrame 1 big_payload, SpdyFrame.dataFrame 1 [0]] =
      (⟨65536, 32769,
        [(1, [SpdyFrame.dataFrame 1 big_payload, SpdyFrame.dataFrame 1 [0]])],
        [SpdyFrame.windowUpdate 1 65536, SpdyFrame.windowUpdate 1 65536]⟩, false) :=
  ⟨List.length_replicate 32768 0,
   c1_flow_control_missing_reset big_payload [0] (List.length_replicate 32768 0) rfl⟩

/--
C9: the tunnel-relay batch refresh connects every instance in order
and returns true whatever the instances and their connect outcomes
are; a failed connect leaves nothing raised and sets that instance's
died flag, while a successful connect installs a live client and
leaves the died flag as it was.
-/
theorem c9_refresh_reports_success :
    ∀ (ps : List (SpdyRelayProxyState × ConnectOutcome)) (p : SpdyRelayProxyState),
      (spdy_refresh ps).2 = true ∧
      (spdy_refresh ps).1 = ps.map (fun po => connect po.1 po.2) ∧
      connect p ConnectOutcome.failure = { p with died := true } ∧
      connect p ConnectOutcome.success = { p with spdy_client := some () } ∧
      (connect p ConnectOutcome.failure).died = true ∧
      (connect p ConnectOutcome.success).died = p.died := by
  intro ps p
  exact ⟨rfl, rfl, rfl, rfl, rfl, rfl⟩

/--
C10: a decoded frame carrying a stream id with no entry in the streams
mapping makes the queue put raise KeyError after the flow-control side
effects; the error leaves every stream queue exactly as it was, aborts
the rest of the batch, and ends the dispatch loop, so no later batch
is consumed either.
-/
theorem c10_unknown_stream_stops_loop :
    ∀ (st : SpdyClientState) (f : SpdyFrame) (sid : Nat) (rest : List SpdyFrame)
      (more : List (List SpdyFrame)),
      f.streamId? = some sid → stream_lookup st.streams sid = none →
      (consume_one st f).2 = true ∧
      (consume_one st f).1.streams = st.streams ∧
      consume_frames st (f :: rest) = ((consume_one st f).1, true) ∧
      spdy_loop st ((f :: rest) :: more) = (consume_one st f).1 := by
  intro st f sid rest more hid hlk
  cases f with
  | settings pairs => simp [SpdyFrame.streamId?] at hid
  | dataFrame s d =>
    have hs : s = sid := by simpa [SpdyFrame.streamId?] using hid
    subst hs
    have hone : consume_one st (SpdyFrame.dataFrame s d) =
        (if st.window_size / 2 ≤ st.current_window + d.length then
          (⟨st.window_size, st.current_window + d.length, st.streams,
            st.sent ++ [SpdyFrame.windowUpdate s st.window_size]⟩ : SpdyClientState)
        else
          ⟨st.window_size, st.current_window + d.length, st.streams, st.sent⟩, true) := by
      by_cases hc : st.window_size / 2 ≤ st.current_window + d.length
      · simp [consume_one, SpdyFrame.streamId?, stream_put, hlk, hc]
      · simp [consume_one, SpdyFrame.streamId?, stream_put, hlk, hc]
    refine ⟨by rw [hone], ?_, by simp [consume_frames, hone], ?_⟩
    · rw [hone]
      split <;> rfl
    · simp [spdy_loop, consume_frames, hone]
  | synReply s hdrs =>
    have hs : s = sid := by simpa [SpdyFrame.streamId?] using hid
    subst hs
    have hone : consume_one st (SpdyFrame.synReply s hdrs) = (st, true) := by
      simp [consume_one, SpdyFrame.streamId?, stream_put, hlk]
    refine ⟨by rw [hone], by rw [hone], ?_, ?_⟩
    · simp [consume_frames, hone]
    · simp [spdy_loop, consume_frames, hone]
  | windowUpdate s sz =>
    have hs : s = sid := by simpa [SpdyFrame.streamId?] using hid
    subst hs
    have hone : consume_one st (SpdyFrame.windowUpdate s sz) = (st, true) := by
      simp [consume_one, SpdyFrame.streamId?, stream_put, hlk]
    refine ⟨by rw [hone], by rw [hone], ?_, ?_⟩
    · simp [consume_frames, hone]
    · simp [spdy_loop, consume_frames, hone]

/--
Witness for C10: with only stream 5 registered, a reply frame for
stream 7 errors, delivers nothing, aborts its batch and stops the
loop before a later batch for stream 5.
-/
theorem c10_unknown_stream_stops_loop_witness :
    (consume_one ⟨65536, 0, [(5, [])], []⟩ (SpdyFrame.synReply 7 [])).2 = true ∧
    (consume_one ⟨65536, 0, [(5, [])], []⟩ (SpdyFrame.synReply 7 [])).1.streams = [(5, [])] ∧
    consume_frames ⟨65536, 0, [(5, [])], []⟩
      [SpdyFrame.synReply 7 [], SpdyFrame.dataFrame 5 [1]] =
      ((consume_one ⟨65536, 0, [(5, [])], []⟩ (SpdyFrame.synReply 7 [])).1, true) ∧
    spdy_loop ⟨65536, 0, [(5, [])], []⟩
      [[SpdyFrame.synReply 7 [], SpdyFrame.dataFrame 5 [1]], [SpdyFrame.dataFrame 5 [2]]] =
      (consume_one ⟨65536, 0, [(5, [])], []⟩ (SpdyFrame.synReply 7 [])).1 :=
  c10_unknown_stream_stops_loop ⟨65536, 0, [(5, [])], []⟩ (SpdyFrame.synReply 7 []) 7
    [SpdyFrame.dataFrame 5 [1]] [[SpdyFrame.dataFrame 5 [2]]] rfl rfl

/--
C2: while response bytes remain, a queue timeout with forwarding not
yet started returns from do_forward through fall_back exactly once,
raising nothing; a queue timeout with forwarding already started
raises the fatal taking-too-long error instead, with no fallback; and
forwarding counts as started exactly once a reply-header frame or a
data frame has been written through, both of which set the flag.
-/
theorem c2_timeout_fallback_before_fatal_after :
    (∀ (ev : List QueueEvent) (r : Int) (cl : ForwardClient), 0 < r →
      cl.forward_started = false →
      do_forward_loop (QueueEvent.timeout :: ev) r cl =
        (ForwardOutcome.fellBack "no response from proxy",
          { cl with fallback_count := cl.fallback_count + 1 })) ∧
    (∀ (ev : List QueueEvent) (r : Int) (cl : ForwardClient), 0 < r →
      cl.forward_started = true →
      do_forward_loop (QueueEvent.timeout :: ev) r cl =
        (ForwardOutcome.fatal "taking too long to read frame from proxy", cl)) ∧
    (∀ (cl cl1 : ForwardClient) (hdrs : List (String × String)) (n : Int),
      on_syn_reply_frame cl hdrs = (some n, cl1) → cl1.forward_started = true) ∧
    (∀ (sid : Nat) (data : List Nat) (ev : List QueueEvent) (r : Int)
      (cl : ForwardClient), 0 < r →
      do_forward_loop (QueueEvent.frame (SpdyFrame.dataFrame sid data) :: ev) r cl =
        do_forward_loop ev (r - (data.length : Int))
          { cl with
            forward_started := true
            downstream := cl.downstream ++ [OutChunk.dataChunk data] }) := by
  refine ⟨?_, ?_, ?_, ?_⟩
  · intro ev r cl hr hf
    simp only [do_forward_loop, if_neg (not_le.mpr hr), hf]
    rfl
  · intro ev r cl hr hf
    simp only [do_forward_loop, if_neg (not_le.mpr hr), hf]
    rfl
  · intro cl cl1 hdrs n h
    cases hv : hlookup (dict_of hdrs) ":version" with
    | none =>
      rw [show on_syn_reply_frame cl hdrs = (none, cl) by
        simp [on_syn_reply_frame, hv]] at h
      exact absurd (congrArg Prod.fst h) (by simp)
    | some ver =>
      cases hs : hlookup (dict_of hdrs) ":status" with
      | none =>
        rw [show on_syn_reply_frame cl hdrs = (none, cl) by
          simp [on_syn_reply_frame, hv, hs]] at h
        exact absurd (congrArg Prod.fst h) (by simp)
      | some status =>
        have hfs : (on_syn_reply_frame cl hdrs).2.forward_started = true := by
          simp only [on_syn_reply_frame, hv, hs]
          split
          · rfl
          · split <;> rfl
        rw [h] at hfs
        exact hfs
  · intro sid data ev r cl hr
    simp only [do_forward_loop, if_neg (not_le.mpr hr), on_data_frame]

/--
Witness for C2: a first-event timeout against a fresh client falls
back once; the same timeout against a client that already forwarded
raises the fatal error and no fallback; a reply-header frame and a
data frame each leave the forwarding-started flag set.
-/
theorem c2_timeout_fallback_before_fatal_after_witness :
    do_forward_loop [QueueEvent.timeout] 5 ⟨false, [], 0⟩ =
      (ForwardOutcome.fellBack "no response from proxy", ⟨false, [], 1⟩) ∧
    do_forward_loop [QueueEvent.timeout] 5 ⟨true, [], 0⟩ =
      (ForwardOutcome.fatal "taking too long to read frame from proxy", ⟨true, [], 0⟩) ∧
    (⟨true, [OutChunk.statusLine "HTTP/1.1" "304 Not Modified",
      OutChunk.headerLine "content-length" "100", OutChunk.blankLine], 0⟩ :
        ForwardClient).forward_started = true ∧
    do_forward_loop [QueueEvent.frame (SpdyFrame.dataFrame 1 [7])] 5 ⟨false, [], 0⟩ =
      do_forward_loop [] 4 ⟨true, [OutChunk.dataChunk [7]], 0⟩ :=
  ⟨c2_timeout_fallback_before_fatal_after.1 [] 5 ⟨false, [], 0⟩ (by norm_num) rfl,
   c2_timeout_fallback_before_fatal_after.2.1 [] 5 ⟨true, [], 0⟩ (by norm_num) rfl,
   c2_timeout_fallback_before_fatal_after.2.2.1 ⟨false, [], 0⟩
     ⟨true, [OutChunk.statusLine "HTTP/1.1" "304 Not Modified",
       OutChunk.headerLine "content-length" "100", OutChunk.blankLine], 0⟩
     [(":version", "HTTP/1.1"), (":status", "304 Not Modified"), ("content-length", "100")]
     0 (by decide),
   c2_timeout_fallback_before_fatal_after.2.2.2 1 [7] [] 5 ⟨false, [], 0⟩ (by norm_num)⟩

/--
C4: when a reply-header frame with version and status pseudo-headers
arrives, a status beginning with 304 makes the remaining byte count
zero whatever content-length declares; for any other status the
remaining count is the parsed declared content-length, and the maxint
sentinel, read until the stream ends, when no content-length is
declared.
-/
theorem c4_reply_304_and_content_length :
    ∀ (cl : ForwardClient) (hdrs : List (String × String)) (ver status : String),
      hlookup (dict_of hdrs) ":version" = some ver →
      hlookup (dict_of hdrs) ":status" = some status →
      (py_startswith status "304" = true → (on_syn_reply_frame cl hdrs).1 = some 0) ∧
      (py_startswith status "304" = false →
        (hlookup (dict_of hdrs) "content-length" = none →
          (on_syn_reply_frame cl hdrs).1 = some maxint) ∧
        (∀ (s : String) (n : Int), hlookup (dict_of hdrs) "content-length" = some s →
          py_int? s = some n → (on_syn_reply_frame cl hdrs).1 = some n)) := by
  intro cl hdrs ver status hv hs
  have hrr : hlookup (reply_rest (dict_of hdrs)) "content-length" =
      hlookup (dict_of hdrs) "content-length" :=
    hlookup_reply_rest (dict_of hdrs) "content-length" (by decide) (by decide)
  refine ⟨?_, ?_⟩
  · intro h304
    simp [on_syn_reply_frame, hv, hs, h304]
  · intro h304
    refine ⟨?_, ?_⟩
    · intro hcl
      simp [on_syn_reply_frame, hv, hs, h304, hrr, hcl]
    · intro s n hcls hn
      simp [on_syn_reply_frame, hv, hs, h304, hrr, hcls, hn]

/--
Witness for C4: a 304 reply declaring content-length 100 still ends
with zero remaining bytes; a 200 reply declaring 100 leaves 100; a 200
reply with no declared length leaves the maxint sentinel.
-/
theorem c4_reply_304_and_content_length_witness :
    (on_syn_reply_frame ⟨false, [], 0⟩
      [(":version", "HTTP/1.1"), (":status", "304 Not Modified"),
        ("content-length", "100")]).1 = some 0 ∧
    (on_syn_reply_frame ⟨false, [], 0⟩
      [(":version", "HTTP/1.1"), (":status", "200 OK"),
        ("content-length", "100")]).1 = some 100 ∧
    (on_syn_reply_frame ⟨false, [], 0⟩
      [(":version", "HTTP/1.1"), (":status", "200 OK")]).1 = some maxint :=
  ⟨(c4_reply_304_and_content_length ⟨false, [], 0⟩
      [(":version", "HTTP/1.1"), (":status", "304 Not Modified"), ("content-length", "100")]
      "HTTP/1.1" "304 Not Modified" (by decide) (by decide)).1 (by decide),
   ((c4_reply_304_and_content_length ⟨false, [], 0⟩
      [(":version", "HTTP/1.1"), (":status", "200 OK"), ("content-length", "100")]
      "HTTP/1.1" "200 OK" (by decide) (by decide)).2 (by decide)).2 "100" 100
      (by decide) (by decide),
   ((c4_reply_304_and_content_length ⟨false, [], 0⟩
      [(":version", "HTTP/1.1"), (":status", "200 OK")]
      "HTTP/1.1" "200 OK" (by decide) (by decide)).2 (by decide)).1 (by decide)⟩

/-- Folding the lower-cased original headers into the header dict makes
the lookup prefer the last matching lower-cased original and fall back
to the dict built before the fold, the one do_forward builds when the
request has no headers. -/
lemma hlookup_do_forward_headers (username password : Option String)
    (method path host : String) (hs : List (String × String)) (k : String) :
    hlookup (do_forward_headers username password method path host hs) k =
      match last_lookup (lower_pairs hs) k with
      | some w => some w
      | none => hlookup (do_forward_headers username password method path host []) k := by
  have hfold : ∀ init : List (String × String),
      List.foldl (fun acc kv => dict_insert acc (py_lower kv.1) kv.2) init hs =
      List.foldl (fun acc kv => dict_insert acc kv.1 kv.2) init (lower_pairs hs) := by
    intro init
    rw [lower_pairs, List.foldl_map]
  show hlookup (List.foldl (fun acc kv => dict_insert acc (py_lower kv.1) kv.2) _ hs) k = _
  rw [hfold, hlookup_foldl_insert]
  cases last_lookup (lower_pairs hs) k <;> rfl

/--
C7 counterexample: with credentials u and p configured, the value
stored under proxy-authorization is the Basic prefix, the base64 of
u:p, and a trailing CRLF that the source formats into the value, so it
is not just Basic followed by the base64 text.
-/
theorem c7_headers_counterexample :
    b64encode "u:p" = "dTpw" ∧
    hlookup (do_forward_headers (some "u") (some "p") "GET" "/" "example.com" [])
      "proxy-authorization" = some "Basic dTpw\r\n" ∧
    some "Basic dTpw\r\n" ≠ some "Basic dTpw" := by
  exact ⟨by decide, by decide, by decide⟩

/--
C7 as amended: the header set do_forward opens the stream with
consists exactly of the five reserved pseudo-headers from the parsed
request, the proxy-authorization entry whose value is the Basic
prefix, the base64 of username:password and a trailing CRLF, present
exactly when both credentials are configured, and every original
request header under its lower-cased name, the last matching original
winning any lookup.
-/
theorem c7_amended_request_headers :
    (∀ (u p method path host : String) (hs : List (String × String)) (k : String),
      u ≠ "" → p ≠ "" →
      (∀ v, last_lookup (lower_pairs hs) k = some v →
        hlookup (do_forward_headers (some u) (some p) method path host hs) k = some v) ∧
      (last_lookup (lower_pairs hs) k = none →
        (k = "proxy-authorization" →
          hlookup (do_forward_headers (some u) (some p) method path host hs) k =
            some ("Basic " ++ py_strip (b64encode (u ++ ":" ++ p)) ++ "\r\n")) ∧
        (k = ":method" →
          hlookup (do_forward_headers (some u) (some p) method path host hs) k =
            some method) ∧
        (k = ":scheme" →
          hlookup (do_forward_headers (some u) (some p) method path host hs) k =
            some "http") ∧
        (k = ":path" →
          hlookup (do_forward_headers (some u) (some p) method path host hs) k =
            some path) ∧
        (k = ":version" →
          hlookup (do_forward_headers (some u) (some p) method path host hs) k =
            some "HTTP/1.1") ∧
        (k = ":host" →
          hlookup (do_forward_headers (some u) (some p) method path host hs) k =
            some host) ∧
        (k ≠ "proxy-authorization" → k ≠ ":method" → k ≠ ":scheme" → k ≠ ":path" →
          k ≠ ":version" → k ≠ ":host" →
          hlookup (do_forward_headers (some u) (some p) method path host hs) k = none))) ∧
    (∀ (method path host : String) (hs : List (String × String)),
      last_lookup (lower_pairs hs) "proxy-authorization" = none →
      hlookup (do_forward_headers none none method path host hs) "proxy-authorization" =
        none) := by
  constructor
  · intro u p method path host hs k hu hp
    have htru : (py_truthy (some u) && py_truthy (some p)) = true := by
      simp [py_truthy, hu, hp]
    have hbase : ∀ x : String,
        hlookup (do_forward_headers (some u) (some p) method path host []) x =
          if x = "proxy-authorization" then
            some ("Basic " ++ py_strip (b64encode (u ++ ":" ++ p)) ++ "\r\n")
          else if x = ":host" then some host
          else if x = ":version" then some "HTTP/1.1"
          else if x = ":path" then some path
          else if x = ":scheme" then some "http"
          else if x = ":method" then some method
          else none := by
      intro x
      show hlookup (if (py_truthy (some u) && py_truthy (some p)) = true then _ else _) x = _
      rw [if_pos htru]
      rw [hlookup_dict_insert]
      simp only [dict_of, List.foldl]
      rw [hlookup_dict_insert, hlookup_dict_insert, hlookup_dict_insert,
        hlookup_dict_insert, hlookup_dict_insert]
      rfl
    constructor
    · intro v hv
      rw [hlookup_do_forward_headers, hv]
    · intro h0
      refine ⟨?_, ?_, ?_, ?_, ?_, ?_, ?_⟩
      · intro hk
        subst hk
        rw [hlookup_do_forward_headers, h0, hbase]
        simp
      · intro hk
        subst hk
        rw [hlookup_do_forward_headers, h0, hbase]
        simp
      · intro hk
        subst hk
        rw [hlookup_do_forward_headers, h0, hbase]
        simp
      · intro hk
        subst hk
        rw [hlookup_do_forward_headers, h0, hbase]
        simp
      · intro hk
        subst hk
        rw [hlookup_do_forward_headers, h0, hbase]
        simp
      · intro hk
        subst hk
        rw [hlookup_do_forward_headers, h0, hbase]
        simp
      · intro h1 h2 h3 h4 h5 h6
        rw [hlookup_do_forward_headers, h0, hbase]
        rw [if_neg h1, if_neg h6, if_neg h5, if_neg h4, if_neg h3, if_neg h2]
  · intro method path host hs h0
    rw [hlookup_do_forward_headers, h0]
    show hlookup (do_forward_headers none none method path host []) "proxy-authorization" =
      none
    rw [show do_forward_headers none none method path host [] =
      dict_of [(":method", method), (":scheme", "http"), (":path", path),
        (":version", "HTTP/1.1"), (":host", host)] from rfl]
    simp only [dict_of, List.foldl]
    rw [hlookup_dict_insert, hlookup_dict_insert, hlookup_dict_insert,
      hlookup_dict_insert, hlookup_dict_insert]
    simp [hlookup]

/--
Witness for C7 at concrete inputs: an original header X-Custom is
found under x-custom; with credentials u and p the proxy-authorization
value carries the trailing CRLF; the method pseudo-header holds GET; a
key in none of the three groups is absent; without credentials there
is no proxy-authorization entry.
-/
theorem c7_amended_request_headers_witness :
    hlookup (do_forward_headers (some "u") (some "p") "GET" "/" "h"
      [("X-Custom", "Val")]) "x-custom" = some "Val" ∧
    hlookup (do_forward_headers (some "u") (some "p") "GET" "/" "h"
      [("X-Custom", "Val")]) "proxy-authorization" =
      some ("Basic " ++ py_strip (b64encode ("u" ++ ":" ++ "p")) ++ "\r\n") ∧
    hlookup (do_forward_headers (some "u") (some "p") "GET" "/" "h"
      [("X-Custom", "Val")]) ":method" = some "GET" ∧
    hlookup (do_forward_headers (some "u") (some "p") "GET" "/" "h"
      [("X-Custom", "Val")]) "zzz" = none ∧
    hlookup (do_forward_headers none none "GET" "/" "h" []) "proxy-authorization" = none :=
  ⟨(c7_amended_request_headers.1 "u" "p" "GET" "/" "h" [("X-Custom", "Val")] "x-custom"
      (by decide) (by decide)).1 "Val" (by decide),
   ((c7_amended_request_headers.1 "u" "p" "GET" "/" "h" [("X-Custom", "Val")]
      "proxy-authorization" (by decide) (by decide)).2 (by decide)).1 rfl,
   ((c7_amended_request_headers.1 "u" "p" "GET" "/" "h" [("X-Custom", "Val")] ":method"
      (by decide) (by decide)).2 (by decide)).2.1 rfl,
   ((c7_amended_request_headers.1 "u" "p" "GET" "/" "h" [("X-Custom", "Val")] "zzz"
      (by decide) (by decide)).2 (by decide)).2.2.2.2.2.2
      (by decide) (by decide) (by decide) (by decide) (by decide) (by decide),
   c7_amended_request_headers.2 "GET" "/" "h" [] rfl⟩
